import Mathlib

/-!
Blocking low-level I/O hook (`AkDefaultIOHookBlocking.cpp`, PS4 sample).

A shallow embedding of `CAkDefaultIOHookBlocking`: `Init`, `Term`, the two
`Open` overloads and `Read`.  The hook is a thin shim over collaborators
whose code is not part of the sample (`AK::StreamMgr`, `CAkFileLocationBase`,
`CAkFileHelpers`, the FIOS file API).  Each collaborator is a parameter of
the embedding, so every theorem holds for all behaviours of the collaborator.
Calls to the file collaborators are recorded, in order, in a call log.

The file also embeds the parameter block of the delay effect
(`AkDelayFXParams.cpp`): `SetParam` and `SetParamsBlock`, over an arbitrary
single-precision arithmetic.

`AKASSERT` is treated as having no effect on the program state.
-/

namespace AK

/-! ## SDK types and constants used by the hook -/

/-- Modelled from the spec: the result-code enumeration.  The SDK header that
declares `AKRESULT` is not among the sources; section 6 of the specification
fixes the codes as Success, Fail, InvalidParameter, PathResolutionFailed,
IOError and UnsupportedSchedulerMode.  The first three are the codes the
sources name `AK_Success`, `AK_Fail` and `AK_InvalidParameter`. -/
inductive AKRESULT where
  | AK_Success
  | AK_Fail
  | AK_InvalidParameter
  | PathResolutionFailed
  | IOError
  | UnsupportedSchedulerMode
  deriving DecidableEq, Repr

/-- Device identifier (`AkDeviceID`, an unsigned 32-bit integer). -/
abbrev AkDeviceID := Nat

/-- Modelled from the spec: the invalid sentinel device handle that denotes
"no device".  The SDK header defining `AK_INVALID_DEVICE_ID` is not among the
sources; the all-ones 32-bit value is used. -/
def AK_INVALID_DEVICE_ID : AkDeviceID := 4294967295

/-- Modelled from the spec: the scheduler discipline "blocking", the only one
the hook supports.  The SDK header defining `AK_SCHEDULER_BLOCKING` is not
among the sources; the flag value 1 is used. -/
def AK_SCHEDULER_BLOCKING : Nat := 1

/-- Modelled from the spec: the success code of the native stat call
(`SCE_FIOS_OK`); the platform header is not among the sources. -/
def SCE_FIOS_OK : Int := 0

/-- Native file handle (`AkFileHandle`). -/
abbrev AkFileHandle := Int

/-- File identifier (`AkFileID`). -/
abbrev AkFileID := Nat

/-- Special flags passed to `Open` through a pointer; the hook never inspects
them, it only forwards the pointer to `GetFullFilePath`. -/
abbrev AkFileSystemFlags := Nat

/-- Modelled from the spec: the open mode, one of Read, Write, ReadWrite and
ReadWriteOverwrite (the SDK header declaring `AkOpenMode` is not among the
sources). -/
inductive AkOpenMode where
  | Read
  | Write
  | ReadWrite
  | ReadWriteOverwrite
  deriving DecidableEq, Repr

/-- File descriptor (`AkFileDesc`), with the six fields the hook touches.
A null `pCustomParam` is `none`. -/
structure AkFileDesc where
  iFileSize : Int
  uSector : Nat
  uCustomParamSize : Nat
  pCustomParam : Option Nat
  hFile : AkFileHandle
  deviceID : AkDeviceID
  deriving DecidableEq, Repr

/-- Result record of the native stat call (`SceFiosStat`); only `fileSize`
is read by the hook. -/
structure SceFiosStat where
  fileSize : Int
  deriving DecidableEq, Repr

/-- Device settings (`AkDeviceSettings`); the hook reads only
`uSchedulerTypeFlags` and forwards the record to `CreateDevice`. -/
structure AkDeviceSettings where
  uSchedulerTypeFlags : Nat
  deriving DecidableEq, Repr

/-- Address of a file-location resolver object (the value of `this`). -/
abbrev HookAddr := Nat

/-- Member variables of `CAkDefaultIOHookBlocking`. -/
structure CAkDefaultIOHookBlocking where
  m_deviceID : AkDeviceID
  m_bAsyncOpen : Bool
  deriving DecidableEq, Repr

/-- Constructor: `m_deviceID( AK_INVALID_DEVICE_ID )`, `m_bAsyncOpen( false )`. -/
def CAkDefaultIOHookBlocking.ctor : CAkDefaultIOHookBlocking :=
  { m_deviceID := AK_INVALID_DEVICE_ID, m_bAsyncOpen := false }

/-! ## File collaborators of `Open` -/

/-- The file collaborators called by `Open`, as parameters.
`GetFullFilePath_name` and `GetFullFilePath_ID` are the two overloads
inherited from `CAkFileLocationBase` (result code and the path written to
`szFullFilePath`); `OpenFile` is `CAkFileHelpers::OpenFile`, given the path,
the mode and the current value of the handle it receives by reference, and
returning the result code and the handle value it leaves there;
`sceFiosFHStatSync` is the native stat call (return code and stat record). -/
structure FileCollaborators where
  GetFullFilePath_name : String → Option AkFileSystemFlags → AkOpenMode → AKRESULT × String
  GetFullFilePath_ID : AkFileID → Option AkFileSystemFlags → AkOpenMode → AKRESULT × String
  OpenFile : String → AkOpenMode → AkFileHandle → AKRESULT × AkFileHandle
  sceFiosFHStatSync : AkFileHandle → Int × SceFiosStat

/-- One entry of the call log of `Open`. -/
inductive NativeCall where
  | GetFullFilePath
  | OpenFile (szFullFilePath : String) (in_eOpenMode : AkOpenMode)
  | sceFiosFHStatSync (hFile : AkFileHandle)
  deriving DecidableEq, Repr

/-- Everything `Open` leaves behind: the returned code, the in/out boolean,
the caller's descriptor, and the collaborator calls made, in order. -/
structure OpenOutcome where
  eResult : AKRESULT
  io_bSyncOpen : Bool
  out_fileDesc : AkFileDesc
  calls : List NativeCall
  deriving DecidableEq, Repr

namespace CAkDefaultIOHookBlocking

/-- `CAkDefaultIOHookBlocking::Open` for a file name (lines 91-152).
`io_bSyncOpen` and `out_fileDesc` are the values the caller's variables hold
on entry; the outcome carries the values they hold on return. -/
def Open (env : FileCollaborators) (self : CAkDefaultIOHookBlocking)
    (in_pszFileName : String) (in_eOpenMode : AkOpenMode)
    (in_pFlags : Option AkFileSystemFlags) (io_bSyncOpen : Bool)
    (out_fileDesc : AkFileDesc) : OpenOutcome :=
  if io_bSyncOpen || !self.m_bAsyncOpen then
    let path := env.GetFullFilePath_name in_pszFileName in_pFlags in_eOpenMode
    if path.1 = AKRESULT.AK_Success then
      let opened := env.OpenFile path.2 in_eOpenMode out_fileDesc.hFile
      let eResult := opened.1
      let fd := { out_fileDesc with hFile := opened.2 }
      if eResult = AKRESULT.AK_Success then
        let st := env.sceFiosFHStatSync fd.hFile
        if st.1 = SCE_FIOS_OK then
          { eResult := eResult
            io_bSyncOpen := true
            out_fileDesc :=
              { fd with
                iFileSize := st.2.fileSize
                uSector := 0
                deviceID := self.m_deviceID
                pCustomParam := none
                uCustomParamSize := 0 }
            calls := [NativeCall.GetFullFilePath, NativeCall.OpenFile path.2 in_eOpenMode,
              NativeCall.sceFiosFHStatSync fd.hFile] }
        else
          { eResult := AKRESULT.AK_Fail
            io_bSyncOpen := true
            out_fileDesc :=
              { fd with
                iFileSize := 0
                uSector := 0
                deviceID := AK_INVALID_DEVICE_ID
                pCustomParam := none
                uCustomParamSize := 0 }
            calls := [NativeCall.GetFullFilePath, NativeCall.OpenFile path.2 in_eOpenMode,
              NativeCall.sceFiosFHStatSync fd.hFile] }
      else
        { eResult := eResult
          io_bSyncOpen := true
          out_fileDesc := fd
          calls := [NativeCall.GetFullFilePath, NativeCall.OpenFile path.2 in_eOpenMode] }
    else
      { eResult := AKRESULT.AK_Fail
        io_bSyncOpen := true
        out_fileDesc := out_fileDesc
        calls := [NativeCall.GetFullFilePath] }
  else
    { eResult := AKRESULT.AK_Success
      io_bSyncOpen := io_bSyncOpen
      out_fileDesc :=
        { out_fileDesc with
          iFileSize := 0
          uSector := 0
          deviceID := self.m_deviceID
          pCustomParam := none
          uCustomParamSize := 0 }
      calls := [] }

/-- `CAkDefaultIOHookBlocking::Open` for a file ID (lines 155-216): the same
body, resolving the path with the file-ID overload of `GetFullFilePath`. -/
def Open_ID (env : FileCollaborators) (self : CAkDefaultIOHookBlocking)
    (in_fileID : AkFileID) (in_eOpenMode : AkOpenMode)
    (in_pFlags : Option AkFileSystemFlags) (io_bSyncOpen : Bool)
    (out_fileDesc : AkFileDesc) : OpenOutcome :=
  if io_bSyncOpen || !self.m_bAsyncOpen then
    let path := env.GetFullFilePath_ID in_fileID in_pFlags in_eOpenMode
    if path.1 = AKRESULT.AK_Success then
      let opened := env.OpenFile path.2 in_eOpenMode out_fileDesc.hFile
      let eResult := opened.1
      let fd := { out_fileDesc with hFile := opened.2 }
      if eResult = AKRESULT.AK_Success then
        let st := env.sceFiosFHStatSync fd.hFile
        if st.1 = SCE_FIOS_OK then
          { eResult := eResult
            io_bSyncOpen := true
            out_fileDesc :=
              { fd with
                iFileSize := st.2.fileSize
                uSector := 0
                deviceID := self.m_deviceID
                pCustomParam := none
                uCustomParamSize := 0 }
            calls := [NativeCall.GetFullFilePath, NativeCall.OpenFile path.2 in_eOpenMode,
              NativeCall.sceFiosFHStatSync fd.hFile] }
        else
          { eResult := AKRESULT.AK_Fail
            io_bSyncOpen := true
            out_fileDesc :=
              { fd with
                iFileSize := 0
                uSector := 0
                deviceID := AK_INVALID_DEVICE_ID
                pCustomParam := none
                uCustomParamSize := 0 }
            calls := [NativeCall.GetFullFilePath, NativeCall.OpenFile path.2 in_eOpenMode,
              NativeCall.sceFiosFHStatSync fd.hFile] }
      else
        { eResult := eResult
          io_bSyncOpen := true
          out_fileDesc := fd
          calls := [NativeCall.GetFullFilePath, NativeCall.OpenFile path.2 in_eOpenMode] }
    else
      { eResult := AKRESULT.AK_Fail
        io_bSyncOpen := true
        out_fileDesc := out_fileDesc
        calls := [NativeCall.GetFullFilePath] }
  else
    { eResult := AKRESULT.AK_Success
      io_bSyncOpen := io_bSyncOpen
      out_fileDesc :=
        { out_fileDesc with
          iFileSize := 0
          uSector := 0
          deviceID := self.m_deviceID
          pCustomParam := none
          uCustomParamSize := 0 }
      calls := [] }

end CAkDefaultIOHookBlocking

/-! ## Stream Manager collaborators of `Init` and `Term` -/

/-- The two device operations of `AK::StreamMgr`, as parameters over an
arbitrary device table `D`: `CreateDevice` receives the settings and the hook
and returns the new device ID (or `AK_INVALID_DEVICE_ID`), `DestroyDevice`
receives a device ID. -/
structure StreamMgrDevices (D : Type) where
  CreateDevice : AkDeviceSettings → HookAddr → D → AkDeviceID × D
  DestroyDevice : AkDeviceID → D → D

/-- Global state of `AK::StreamMgr` seen by the hook: the registered File
Location Resolver (a pointer, `none` when null) and the device table.  The
device operations act on the device table only. -/
structure StreamMgrState (D : Type) where
  resolver : Option HookAddr
  devices : D

namespace StreamMgr

/-- `AK::StreamMgr::GetFileLocationResolver()`. -/
def GetFileLocationResolver {D : Type} (s : StreamMgrState D) : Option HookAddr :=
  s.resolver

/-- `AK::StreamMgr::SetFileLocationResolver( p )`. -/
def SetFileLocationResolver {D : Type} (p : Option HookAddr) (s : StreamMgrState D) :
    StreamMgrState D :=
  { s with resolver := p }

end StreamMgr

/-- Everything `Init` leaves behind: returned code, members, global state. -/
structure InitOutcome (D : Type) where
  eResult : AKRESULT
  self : CAkDefaultIOHookBlocking
  mgr : StreamMgrState D

namespace CAkDefaultIOHookBlocking

/-- `CAkDefaultIOHookBlocking::Init` (lines 52-76); `this` is the address of
the hook object. -/
def Init {D : Type} (api : StreamMgrDevices D) (this : HookAddr)
    (self : CAkDefaultIOHookBlocking) (in_deviceSettings : AkDeviceSettings)
    (in_bAsyncOpen : Bool) (mgr : StreamMgrState D) : InitOutcome D :=
  if in_deviceSettings.uSchedulerTypeFlags ≠ AK_SCHEDULER_BLOCKING then
    { eResult := AKRESULT.AK_Fail, self := self, mgr := mgr }
  else
    let self1 := { self with m_bAsyncOpen := in_bAsyncOpen }
    let mgr1 :=
      if (StreamMgr.GetFileLocationResolver mgr).isNone then
        StreamMgr.SetFileLocationResolver (some this) mgr
      else mgr
    let created := api.CreateDevice in_deviceSettings this mgr1.devices
    let self2 := { self1 with m_deviceID := created.1 }
    let mgr2 := { mgr1 with devices := created.2 }
    if self2.m_deviceID ≠ AK_INVALID_DEVICE_ID then
      { eResult := AKRESULT.AK_Success, self := self2, mgr := mgr2 }
    else
      { eResult := AKRESULT.AK_Fail, self := self2, mgr := mgr2 }

/-- `CAkDefaultIOHookBlocking::Term` (lines 78-84). -/
def Term {D : Type} (api : StreamMgrDevices D) (this : HookAddr)
    (self : CAkDefaultIOHookBlocking) (mgr : StreamMgrState D) : StreamMgrState D :=
  let mgr1 :=
    if StreamMgr.GetFileLocationResolver mgr = some this then
      StreamMgr.SetFileLocationResolver none mgr
    else mgr
  { mgr1 with devices := api.DestroyDevice self.m_deviceID mgr1.devices }

end CAkDefaultIOHookBlocking

/-! ## `Read` -/

/-- Transfer information (`AkIOTransferInfo`), with the two fields `Read`
uses. -/
structure AkIOTransferInfo where
  uFilePosition : Nat
  uRequestedSize : Nat
  deriving DecidableEq, Repr

/-- Modelled from the spec: the heuristics of a transfer (priority and
deadline); the SDK header declaring `AkIoHeuristics` is not among the
sources. -/
structure AkIoHeuristics where
  priority : Nat
  deadline : Nat
  deriving DecidableEq, Repr

/-- Contents of the memory behind `out_pBuffer`, byte by byte. -/
abbrev Buffer := List Nat

/-- What `CAkFileHelpers::ReadBlocking` leaves behind: its result code, the
buffer contents, and the value written to its size-transferred out
parameter. -/
structure ReadBlockingOutcome where
  eResult : AKRESULT
  buffer : Buffer
  out_uSizeRead : Nat
  deriving DecidableEq, Repr

/-- The helper `CAkFileHelpers::ReadBlocking` as a parameter: file handle,
buffer contents on entry, position, size to read. -/
abbrev ReadBlockingFn := AkFileHandle → Buffer → Nat → Nat → ReadBlockingOutcome

/-- Everything the caller of `Read` can observe afterwards: the returned
code, the buffer contents, and the transfer information it passed by
reference. -/
structure ReadOutcome where
  eResult : AKRESULT
  out_pBuffer : Buffer
  io_transferInfo : AkIOTransferInfo
  deriving DecidableEq, Repr

namespace CAkDefaultIOHookBlocking

/-- `CAkDefaultIOHookBlocking::Read` (lines 223-239).  The size written by
`ReadBlocking` goes to the local `uSizeTransferred`, which is not used
afterwards. -/
def Read (ReadBlocking : ReadBlockingFn) (in_fileDesc : AkFileDesc)
    (_in_heuristics : AkIoHeuristics) (out_pBuffer : Buffer)
    (io_transferInfo : AkIOTransferInfo) : ReadOutcome :=
  let r := ReadBlocking in_fileDesc.hFile out_pBuffer io_transferInfo.uFilePosition
    io_transferInfo.uRequestedSize
  let _uSizeTransferred := r.out_uSizeRead
  { eResult := r.eResult, out_pBuffer := r.buffer, io_transferInfo := io_transferInfo }

end CAkDefaultIOHookBlocking

/-! ## Concrete collaborators used to instantiate the theorems -/

/-- File collaborators over a one-file system: every name and ID resolves,
the open yields handle 3, and the file has 100 bytes. -/
def sampleFiles : FileCollaborators where
  GetFullFilePath_name := fun n _ _ => (AKRESULT.AK_Success, n)
  GetFullFilePath_ID := fun _ _ _ => (AKRESULT.AK_Success, "1.wem")
  OpenFile := fun _ _ _ => (AKRESULT.AK_Success, 3)
  sceFiosFHStatSync := fun _ => (SCE_FIOS_OK, { fileSize := 100 })

/-- As `sampleFiles`, but the native stat fails with code -1. -/
def statFailingFiles : FileCollaborators where
  GetFullFilePath_name := fun n _ _ => (AKRESULT.AK_Success, n)
  GetFullFilePath_ID := fun _ _ _ => (AKRESULT.AK_Success, "1.wem")
  OpenFile := fun _ _ _ => (AKRESULT.AK_Success, 3)
  sceFiosFHStatSync := fun _ => (-1, { fileSize := 0 })

/-- As `sampleFiles`, but path resolution fails. -/
def unresolvableFiles : FileCollaborators where
  GetFullFilePath_name := fun _ _ _ => (AKRESULT.AK_Fail, "")
  GetFullFilePath_ID := fun _ _ _ => (AKRESULT.AK_Fail, "")
  OpenFile := fun _ _ _ => (AKRESULT.AK_Success, 3)
  sceFiosFHStatSync := fun _ => (SCE_FIOS_OK, { fileSize := 100 })

/-- A descriptor with arbitrary stale contents, as a caller may pass in. -/
def staleDesc : AkFileDesc :=
  { iFileSize := 77, uSector := 5, uCustomParamSize := 8, pCustomParam := some 4096,
    hFile := 9, deviceID := 12 }

/-- An initialised hook with device 0 and deferred opens allowed. -/
def sampleHook : CAkDefaultIOHookBlocking :=
  { m_deviceID := 0, m_bAsyncOpen := true }

/-- A device table that is the list of live device IDs: creation hands out
the next unused number, destruction removes the entry. -/
def listDevices : StreamMgrDevices (List AkDeviceID) where
  CreateDevice := fun _ _ devs => (devs.length, devs ++ [devs.length])
  DestroyDevice := fun d devs => devs.filter (fun x => x != d)

/-- A device table in which creation always fails. -/
def failingDevices : StreamMgrDevices (List AkDeviceID) where
  CreateDevice := fun _ _ devs => (AK_INVALID_DEVICE_ID, devs)
  DestroyDevice := fun d devs => devs.filter (fun x => x != d)

/-- A positional read over a file of given contents: it copies the bytes
available from `pos` on, at most `size` of them, over the start of the
buffer, and reports how many it copied. -/
def preadFile (contents : List Nat) : ReadBlockingFn :=
  fun _ buf pos size =>
    let got := (contents.drop pos).take size
    { eResult := AKRESULT.AK_Success
      buffer := got ++ buf.drop got.length
      out_uSizeRead := got.length }


/-- What the caller of `Open` names the file by: its name or its ID. -/
inductive FileRef where
  | byName (in_pszFileName : String)
  | byID (in_fileID : AkFileID)
  deriving DecidableEq, Repr

/-- Overload resolution: a call of `Open` runs the file-name overload or the
file-ID overload according to the first argument. -/
def openCall (env : FileCollaborators) (self : CAkDefaultIOHookBlocking)
    (file : FileRef) (in_eOpenMode : AkOpenMode)
    (in_pFlags : Option AkFileSystemFlags) (io_bSyncOpen : Bool)
    (out_fileDesc : AkFileDesc) : OpenOutcome :=
  match file with
  | FileRef.byName n =>
      CAkDefaultIOHookBlocking.Open env self n in_eOpenMode in_pFlags io_bSyncOpen out_fileDesc
  | FileRef.byID i =>
      CAkDefaultIOHookBlocking.Open_ID env self i in_eOpenMode in_pFlags io_bSyncOpen out_fileDesc

/-- The path-resolution overload that a call of `Open` on `file` uses. -/
def resolveCall (env : FileCollaborators) (file : FileRef)
    (in_pFlags : Option AkFileSystemFlags) (in_eOpenMode : AkOpenMode) : AKRESULT × String :=
  match file with
  | FileRef.byName n => env.GetFullFilePath_name n in_pFlags in_eOpenMode
  | FileRef.byID i => env.GetFullFilePath_ID i in_pFlags in_eOpenMode

/-- Whether a call-log entry is a native open. -/
def NativeCall.isOpenFile : NativeCall → Bool
  | NativeCall.OpenFile _ _ => true
  | _ => false

/-- Whether a call-log entry is a native stat. -/
def NativeCall.isStat : NativeCall → Bool
  | NativeCall.sceFiosFHStatSync _ => true
  | _ => false

/-! ## Delay effect parameters (`AkDelayFXParams.cpp`) -/

/-- Modelled from the spec: the six parameter IDs that `SetParam` recognises
(delay time, feedback, wet/dry mix, output gain, feedback enabled, process
LFE).  The header `AkDelayFXParams.h` that defines them is not among the
sources; they are numbered 0 to 5 in that order.  This one is the delay time. -/
def AK_DELAYFXPARAM_DELAYTIME_ID : Int := 0

/-- Modelled from the spec: parameter ID of the feedback (see
`AK_DELAYFXPARAM_DELAYTIME_ID`). -/
def AK_DELAYFXPARAM_FEEDBACK_ID : Int := 1

/-- Modelled from the spec: parameter ID of the wet/dry mix (see
`AK_DELAYFXPARAM_DELAYTIME_ID`). -/
def AK_DELAYFXPARAM_WETDRYMIX_ID : Int := 2

/-- Modelled from the spec: parameter ID of the output gain (see
`AK_DELAYFXPARAM_DELAYTIME_ID`). -/
def AK_DELAYFXPARAM_OUTPUTGAIN_ID : Int := 3

/-- Modelled from the spec: parameter ID of the feedback-enabled switch (see
`AK_DELAYFXPARAM_DELAYTIME_ID`). -/
def AK_DELAYFXPARAM_FEEDBACKENABLED_ID : Int := 4

/-- Modelled from the spec: parameter ID of the process-LFE switch (see
`AK_DELAYFXPARAM_DELAYTIME_ID`). -/
def AK_DELAYFXPARAM_PROCESSLFE_ID : Int := 5

/-- The single-precision operations the parameter block applies to a value of
the number type `R` that stands for `AkReal32`, as parameters:
`mulOneOverPercentMax x` is `x * ONEOVER_DELAYFXPARAM_PERCENT_MAX`,
`powfTenOfTwentieth x` is `powf( 10.f, x * 0.05f )`, `AK_DBTOLIN` is the SDK
conversion used by `SetParamsBlock`, and `neZero x` is `x != 0`. -/
structure Real32Arith (R : Type) where
  mulOneOverPercentMax : R → R
  powfTenOfTwentieth : R → R
  AK_DBTOLIN : R → R
  neZero : R → Bool

/-- The RTPC group of the parameter block (`AkDelayRTPCParams`). -/
structure AkDelayRTPCParams (R : Type) where
  fFeedback : R
  fWetDryMix : R
  fOutputLevel : R
  bFeedbackEnabled : Bool
  bHasChanged : Bool

/-- The non-RTPC group of the parameter block (`AkDelayNonRTPCParams`). -/
structure AkDelayNonRTPCParams (R : Type) where
  fDelayTime : R
  bProcessLFE : Bool
  bHasChanged : Bool

/-- Member variables of `CAkDelayFXParams`. -/
structure CAkDelayFXParams (R : Type) where
  RTPC : AkDelayRTPCParams R
  NonRTPC : AkDelayNonRTPCParams R

/-- The memory behind `in_pValue`, by what each of the two casts `SetParam`
applies reads from it: `*(AkReal32*)(in_pValue)` and `*(bool*)(in_pValue)`. -/
structure ParamValue (R : Type) where
  asReal32 : R
  asBool : Bool

/-- The six values `SetParamsBlock` takes out of the parameter block with
`READBANKDATA`, in reading order, and the result code `CHECKBANKDATASIZE`
leaves in `eResult` (both macros come from an SDK header that is not among
the sources). -/
structure ParamsBlock (R : Type) where
  fDelayTime : R
  fFeedback : R
  fWetDryMix : R
  fOutputLevel : R
  bFeedbackEnabled : Bool
  bProcessLFE : Bool
  checkedSize : AKRESULT

namespace CAkDelayFXParams

/-- `CAkDelayFXParams::SetParamsBlock` (lines 77-99). -/
def SetParamsBlock {R : Type} (ar : Real32Arith R) (self : CAkDelayFXParams R)
    (in_pParamsBlock : ParamsBlock R) : AKRESULT × CAkDelayFXParams R :=
  let eResult := in_pParamsBlock.checkedSize
  let nonRTPC := { self.NonRTPC with
    fDelayTime := in_pParamsBlock.fDelayTime
    bProcessLFE := in_pParamsBlock.bProcessLFE }
  let rtpc := { self.RTPC with
    fFeedback := ar.mulOneOverPercentMax in_pParamsBlock.fFeedback
    fWetDryMix := ar.mulOneOverPercentMax in_pParamsBlock.fWetDryMix
    fOutputLevel := ar.AK_DBTOLIN in_pParamsBlock.fOutputLevel
    bFeedbackEnabled := in_pParamsBlock.bFeedbackEnabled }
  (eResult,
    { RTPC := { rtpc with bHasChanged := true }
      NonRTPC := { nonRTPC with bHasChanged := true } })

/-- `CAkDelayFXParams::SetParam` (lines 102-143): the returned code and the
members after the call.  The `switch` is a chain of tests on `in_ParamID`. -/
def SetParam {R : Type} (ar : Real32Arith R) (self : CAkDelayFXParams R)
    (in_ParamID : Int) (in_pValue : ParamValue R) (_in_ulParamSize : Nat) :
    AKRESULT × CAkDelayFXParams R :=
  if in_ParamID = AK_DELAYFXPARAM_DELAYTIME_ID then
    (AKRESULT.AK_Success,
      { self with NonRTPC := { self.NonRTPC with
          fDelayTime := in_pValue.asReal32
          bHasChanged := true } })
  else if in_ParamID = AK_DELAYFXPARAM_FEEDBACK_ID then
    (AKRESULT.AK_Success,
      { self with RTPC := { self.RTPC with
          fFeedback := ar.mulOneOverPercentMax in_pValue.asReal32
          bHasChanged := true } })
  else if in_ParamID = AK_DELAYFXPARAM_WETDRYMIX_ID then
    (AKRESULT.AK_Success,
      { self with RTPC := { self.RTPC with
          fWetDryMix := ar.mulOneOverPercentMax in_pValue.asReal32 } })
  else if in_ParamID = AK_DELAYFXPARAM_OUTPUTGAIN_ID then
    (AKRESULT.AK_Success,
      { self with RTPC := { self.RTPC with
          fOutputLevel := ar.powfTenOfTwentieth in_pValue.asReal32 } })
  else if in_ParamID = AK_DELAYFXPARAM_FEEDBACKENABLED_ID then
    (AKRESULT.AK_Success,
      { self with RTPC := { self.RTPC with
          bFeedbackEnabled := ar.neZero in_pValue.asReal32
          bHasChanged := true } })
  else if in_ParamID = AK_DELAYFXPARAM_PROCESSLFE_ID then
    (AKRESULT.AK_Success,
      { self with NonRTPC := { self.NonRTPC with
          bProcessLFE := in_pValue.asBool
          bHasChanged := true } })
  else
    (AKRESULT.AK_InvalidParameter, self)

end CAkDelayFXParams

/-- Single-precision values written as unevaluated expressions over integer
literals, so that a concrete parameter block can be run without fixing how
the floating-point operations round. -/
inductive Real32Term where
  | lit (n : Int)
  | mulOneOverPercentMax (x : Real32Term)
  | powfTenOfTwentieth (x : Real32Term)
  | AK_DBTOLIN (x : Real32Term)
  deriving DecidableEq, Repr

/-- The operations on `Real32Term`: each builds the expression; a value is
taken to be zero exactly when it is the literal 0. -/
def termArith : Real32Arith Real32Term where
  mulOneOverPercentMax := Real32Term.mulOneOverPercentMax
  powfTenOfTwentieth := Real32Term.powfTenOfTwentieth
  AK_DBTOLIN := Real32Term.AK_DBTOLIN
  neZero := fun x => x != Real32Term.lit 0

/-- A parameter block whose two changed flags are false: delay time 1,
feedback, wet/dry mix and output level 0, both switches off. -/
def settledParams : CAkDelayFXParams Real32Term :=
  { RTPC :=
      { fFeedback := Real32Term.lit 0, fWetDryMix := Real32Term.lit 0,
        fOutputLevel := Real32Term.lit 0, bFeedbackEnabled := false, bHasChanged := false }
    NonRTPC :=
      { fDelayTime := Real32Term.lit 1, bProcessLFE := false, bHasChanged := false } }

/-! ## Theorems about `Open` -/

/-- Both overloads in one unfolding lemma: a call of `Open` on the
synchronous path whose path resolution fails. -/
theorem openCall_resolve_failed (env : FileCollaborators) (self : CAkDefaultIOHookBlocking)
    (file : FileRef) (mode : AkOpenMode) (flags : Option AkFileSystemFlags) (sync : Bool)
    (fd : AkFileDesc) (hsync : (sync || !self.m_bAsyncOpen) = true)
    (hpath : (resolveCall env file flags mode).1 ≠ AKRESULT.AK_Success) :
    openCall env self file mode flags sync fd =
      { eResult := AKRESULT.AK_Fail, io_bSyncOpen := true, out_fileDesc := fd,
        calls := [NativeCall.GetFullFilePath] } := by
  cases file <;>
    simp only [resolveCall] at hpath <;>
    simp only [openCall, CAkDefaultIOHookBlocking.Open, CAkDefaultIOHookBlocking.Open_ID,
      hsync, hpath, if_true, if_false]

/-- Both overloads in one unfolding lemma: a call of `Open` on the
synchronous path whose path resolution succeeds performs the native open on
the resolved path, first thing after the resolution. -/
theorem openCall_resolved_calls (env : FileCollaborators) (self : CAkDefaultIOHookBlocking)
    (file : FileRef) (mode : AkOpenMode) (flags : Option AkFileSystemFlags) (sync : Bool)
    (fd : AkFileDesc) (hsync : (sync || !self.m_bAsyncOpen) = true)
    (hpath : (resolveCall env file flags mode).1 = AKRESULT.AK_Success) :
    ∃ rest, (openCall env self file mode flags sync fd).calls =
      NativeCall.GetFullFilePath ::
        NativeCall.OpenFile (resolveCall env file flags mode).2 mode :: rest := by
  cases file <;>
    simp only [resolveCall] at hpath <;>
    simp only [openCall, resolveCall, CAkDefaultIOHookBlocking.Open,
      CAkDefaultIOHookBlocking.Open_ID, hsync, hpath, if_true] <;>
    split_ifs <;> simp

/-- C1: on a hook whose `m_bAsyncOpen` is true, a call of `Open` (by name or
by ID) entered with `io_bSyncOpen` false returns `AK_Success` with an empty
call log (no path resolution, no native open, no native stat); the descriptor
has file size 0, the hook's own device ID, a null custom parameter of size 0,
and `io_bSyncOpen` is still false on return. -/
theorem open_deferred_when_async_allowed (env : FileCollaborators)
    (self : CAkDefaultIOHookBlocking) (file : FileRef) (mode : AkOpenMode)
    (flags : Option AkFileSystemFlags) (sync : Bool) (fd : AkFileDesc)
    (hAsync : self.m_bAsyncOpen = true) (hReq : sync = false) :
    (openCall env self file mode flags sync fd).eResult = AKRESULT.AK_Success ∧
    (openCall env self file mode flags sync fd).calls = [] ∧
    (openCall env self file mode flags sync fd).out_fileDesc.iFileSize = 0 ∧
    (openCall env self file mode flags sync fd).out_fileDesc.deviceID = self.m_deviceID ∧
    (openCall env self file mode flags sync fd).out_fileDesc.pCustomParam = none ∧
    (openCall env self file mode flags sync fd).out_fileDesc.uCustomParamSize = 0 ∧
    (openCall env self file mode flags sync fd).io_bSyncOpen = false := by
  subst hReq
  cases file <;>
    simp [openCall, CAkDefaultIOHookBlocking.Open, CAkDefaultIOHookBlocking.Open_ID, hAsync]

/-- Witness of C1: a deferred open of "a.dat" on the sample hook. -/
theorem open_deferred_when_async_allowed_witness :
    sampleHook.m_bAsyncOpen = true ∧
    (openCall sampleFiles sampleHook (FileRef.byName "a.dat") AkOpenMode.Read none false
      staleDesc).calls = [] ∧
    (openCall sampleFiles sampleHook (FileRef.byID 1) AkOpenMode.Read none false
      staleDesc).out_fileDesc.deviceID = 0 :=
  ⟨rfl,
   (open_deferred_when_async_allowed sampleFiles sampleHook (FileRef.byName "a.dat")
      AkOpenMode.Read none false staleDesc rfl rfl).2.1,
   (open_deferred_when_async_allowed sampleFiles sampleHook (FileRef.byID 1)
      AkOpenMode.Read none false staleDesc rfl rfl).2.2.2.1⟩

/-- C2: for every call of `Open`, whatever it returns, `io_bSyncOpen` on
return equals (`io_bSyncOpen` on entry or not `m_bAsyncOpen`). -/
theorem open_sync_flag_on_exit (env : FileCollaborators) (self : CAkDefaultIOHookBlocking)
    (file : FileRef) (mode : AkOpenMode) (flags : Option AkFileSystemFlags) (sync : Bool)
    (fd : AkFileDesc) :
    (openCall env self file mode flags sync fd).io_bSyncOpen =
      (sync || !self.m_bAsyncOpen) := by
  cases file <;> cases sync <;> cases hA : self.m_bAsyncOpen <;>
    simp only [openCall, CAkDefaultIOHookBlocking.Open, CAkDefaultIOHookBlocking.Open_ID, hA] <;>
    split_ifs <;> simp_all

/-- C3: a call of `Open` on the synchronous path in which path resolution,
the native open and the native stat all succeed returns `AK_Success`; the
descriptor has the file size reported by the stat, the hook's device ID, a
null custom parameter of size 0 and `uSector` 0. -/
theorem open_sync_success (env : FileCollaborators) (self : CAkDefaultIOHookBlocking)
    (file : FileRef) (mode : AkOpenMode) (flags : Option AkFileSystemFlags) (sync : Bool)
    (fd : AkFileDesc) (hsync : (sync || !self.m_bAsyncOpen) = true)
    (hpath : (resolveCall env file flags mode).1 = AKRESULT.AK_Success)
    (hopen : (env.OpenFile (resolveCall env file flags mode).2 mode fd.hFile).1 =
      AKRESULT.AK_Success)
    (hstat : (env.sceFiosFHStatSync
      (env.OpenFile (resolveCall env file flags mode).2 mode fd.hFile).2).1 = SCE_FIOS_OK) :
    (openCall env self file mode flags sync fd).eResult = AKRESULT.AK_Success ∧
    (openCall env self file mode flags sync fd).out_fileDesc.iFileSize =
      (env.sceFiosFHStatSync
        (env.OpenFile (resolveCall env file flags mode).2 mode fd.hFile).2).2.fileSize ∧
    (openCall env self file mode flags sync fd).out_fileDesc.deviceID = self.m_deviceID ∧
    (openCall env self file mode flags sync fd).out_fileDesc.pCustomParam = none ∧
    (openCall env self file mode flags sync fd).out_fileDesc.uCustomParamSize = 0 ∧
    (openCall env self file mode flags sync fd).out_fileDesc.uSector = 0 := by
  cases file <;>
    simp only [resolveCall] at hpath hopen hstat <;>
    simp only [openCall, resolveCall, CAkDefaultIOHookBlocking.Open,
      CAkDefaultIOHookBlocking.Open_ID, hsync, hpath, hopen, hstat, if_true, and_self]

/-- Witness of C3: a synchronous open of the 100-byte sample file, on a hook
that allows deferred opens, with `io_bSyncOpen` true on entry. -/
theorem open_sync_success_witness :
    (openCall sampleFiles sampleHook (FileRef.byName "a.dat") AkOpenMode.Read none true
      staleDesc).eResult = AKRESULT.AK_Success ∧
    (openCall sampleFiles sampleHook (FileRef.byName "a.dat") AkOpenMode.Read none true
      staleDesc).out_fileDesc.iFileSize = 100 :=
  ⟨(open_sync_success sampleFiles sampleHook (FileRef.byName "a.dat") AkOpenMode.Read none
      true staleDesc rfl rfl rfl rfl).1,
   (open_sync_success sampleFiles sampleHook (FileRef.byName "a.dat") AkOpenMode.Read none
      true staleDesc rfl rfl rfl rfl).2.1⟩

/-- C4, as stated, fails: with `io_bSyncOpen` true on entry and a path that
does not resolve, `Open` returns without any native open in its call log. -/
theorem open_sync_without_native_open :
    (openCall unresolvableFiles sampleHook (FileRef.byName "a.dat") AkOpenMode.Read none true
      staleDesc).calls = [NativeCall.GetFullFilePath] ∧
    (openCall unresolvableFiles sampleHook (FileRef.byName "a.dat") AkOpenMode.Read none true
      staleDesc).calls.any NativeCall.isOpenFile = false := by
  constructor <;> rfl

/-- C4, amended: for every call of `Open` with `io_bSyncOpen` true on entry,
and for both values of `m_bAsyncOpen`, path resolution is called first; if it
succeeds the native open is performed on the resolved path before `Open`
returns, as the second call (followed by the native stat exactly when the
open succeeds), and if it fails `Open` returns `AK_Fail` with no native open,
the path resolution being the only call. -/
theorem open_sync_requested_native_open (env : FileCollaborators)
    (self : CAkDefaultIOHookBlocking) (file : FileRef) (mode : AkOpenMode)
    (flags : Option AkFileSystemFlags) (sync : Bool) (fd : AkFileDesc)
    (hReq : sync = true) :
    (openCall env self file mode flags sync fd).calls.head? =
      some NativeCall.GetFullFilePath ∧
    ((resolveCall env file flags mode).1 = AKRESULT.AK_Success →
      (openCall env self file mode flags sync fd).calls =
        NativeCall.GetFullFilePath ::
          NativeCall.OpenFile (resolveCall env file flags mode).2 mode ::
            (if (env.OpenFile (resolveCall env file flags mode).2 mode fd.hFile).1 =
                AKRESULT.AK_Success then
              [NativeCall.sceFiosFHStatSync
                (env.OpenFile (resolveCall env file flags mode).2 mode fd.hFile).2]
            else []) ∧
      NativeCall.OpenFile (resolveCall env file flags mode).2 mode ∈
        (openCall env self file mode flags sync fd).calls ∧
      (openCall env self file mode flags sync fd).calls.any NativeCall.isOpenFile = true) ∧
    ((resolveCall env file flags mode).1 ≠ AKRESULT.AK_Success →
      (openCall env self file mode flags sync fd).eResult = AKRESULT.AK_Fail ∧
      (openCall env self file mode flags sync fd).calls = [NativeCall.GetFullFilePath] ∧
      (openCall env self file mode flags sync fd).calls.any NativeCall.isOpenFile = false) := by
  have hsync : (sync || !self.m_bAsyncOpen) = true := by simp [hReq]
  have hfail := openCall_resolve_failed env self file mode flags sync fd hsync
  have hlog : (resolveCall env file flags mode).1 = AKRESULT.AK_Success →
      (openCall env self file mode flags sync fd).calls =
        NativeCall.GetFullFilePath ::
          NativeCall.OpenFile (resolveCall env file flags mode).2 mode ::
            (if (env.OpenFile (resolveCall env file flags mode).2 mode fd.hFile).1 =
                AKRESULT.AK_Success then
              [NativeCall.sceFiosFHStatSync
                (env.OpenFile (resolveCall env file flags mode).2 mode fd.hFile).2]
            else []) := by
    intro hpath
    cases file <;>
      simp only [resolveCall] at hpath <;>
      simp only [openCall, resolveCall, CAkDefaultIOHookBlocking.Open,
        CAkDefaultIOHookBlocking.Open_ID, hsync, hpath, if_true] <;>
      split_ifs <;> rfl
  refine ⟨?_, fun hpath => ⟨hlog hpath, ?_, ?_⟩, fun hpath => ?_⟩
  · by_cases hpath : (resolveCall env file flags mode).1 = AKRESULT.AK_Success
    · rw [hlog hpath]
      rfl
    · rw [hfail hpath]
      rfl
  · rw [hlog hpath]
    simp
  · rw [hlog hpath]
    simp [NativeCall.isOpenFile]
  · rw [hfail hpath]
    simp [NativeCall.isOpenFile]

/-- Witness of C4, amended: a synchronous open on a hook that allows deferred
opens resolves the path, then opens the resolved path, then stats the handle
the open produced. -/
theorem open_sync_requested_native_open_witness :
    (openCall sampleFiles sampleHook (FileRef.byName "a.dat") AkOpenMode.Read none true
      staleDesc).calls =
      [NativeCall.GetFullFilePath, NativeCall.OpenFile "a.dat" AkOpenMode.Read,
        NativeCall.sceFiosFHStatSync 3] ∧
    NativeCall.OpenFile "a.dat" AkOpenMode.Read ∈
      (openCall sampleFiles sampleHook (FileRef.byName "a.dat") AkOpenMode.Read none true
        staleDesc).calls :=
  ⟨((open_sync_requested_native_open sampleFiles sampleHook (FileRef.byName "a.dat")
      AkOpenMode.Read none true staleDesc rfl).2.1 rfl).1,
   ((open_sync_requested_native_open sampleFiles sampleHook (FileRef.byName "a.dat")
      AkOpenMode.Read none true staleDesc rfl).2.1 rfl).2.1⟩

/-- C5, as stated, fails: when path resolution and the native open succeed
and the native stat fails, `Open` returns the generic `AK_Fail`, which is not
the code `IOError`. -/
theorem open_stat_failure_not_IOError :
    (openCall statFailingFiles sampleHook (FileRef.byName "a.dat") AkOpenMode.Read none true
      staleDesc).eResult = AKRESULT.AK_Fail ∧
    (openCall statFailingFiles sampleHook (FileRef.byName "a.dat") AkOpenMode.Read none true
      staleDesc).eResult ≠ AKRESULT.IOError := by
  constructor <;> decide

/-- C5, amended: a call of `Open` on the synchronous path in which path
resolution and the native open succeed but the native stat fails returns
`AK_Fail`; the descriptor is marked invalid, with file size 0 and device ID
`AK_INVALID_DEVICE_ID` (whatever the hook's own device ID is), and it keeps
the native handle the open produced. -/
theorem open_stat_failure (env : FileCollaborators) (self : CAkDefaultIOHookBlocking)
    (file : FileRef) (mode : AkOpenMode) (flags : Option AkFileSystemFlags) (sync : Bool)
    (fd : AkFileDesc) (hsync : (sync || !self.m_bAsyncOpen) = true)
    (hpath : (resolveCall env file flags mode).1 = AKRESULT.AK_Success)
    (hopen : (env.OpenFile (resolveCall env file flags mode).2 mode fd.hFile).1 =
      AKRESULT.AK_Success)
    (hstat : (env.sceFiosFHStatSync
      (env.OpenFile (resolveCall env file flags mode).2 mode fd.hFile).2).1 ≠ SCE_FIOS_OK) :
    (openCall env self file mode flags sync fd).eResult = AKRESULT.AK_Fail ∧
    (openCall env self file mode flags sync fd).out_fileDesc.iFileSize = 0 ∧
    (openCall env self file mode flags sync fd).out_fileDesc.deviceID = AK_INVALID_DEVICE_ID ∧
    (openCall env self file mode flags sync fd).out_fileDesc.hFile =
      (env.OpenFile (resolveCall env file flags mode).2 mode fd.hFile).2 := by
  cases file <;>
    simp only [resolveCall] at hpath hopen hstat <;>
    simp only [openCall, resolveCall, CAkDefaultIOHookBlocking.Open,
      CAkDefaultIOHookBlocking.Open_ID, hsync, hpath, hopen, hstat, if_true, if_false,
      and_self]

/-- Witness of C5, amended: the stat of the opened file fails with -1. -/
theorem open_stat_failure_witness :
    (openCall statFailingFiles sampleHook (FileRef.byID 1) AkOpenMode.Read none true
      staleDesc).out_fileDesc.deviceID = AK_INVALID_DEVICE_ID ∧
    (openCall statFailingFiles sampleHook (FileRef.byID 1) AkOpenMode.Read none true
      staleDesc).out_fileDesc.hFile = 3 :=
  ⟨(open_stat_failure statFailingFiles sampleHook (FileRef.byID 1) AkOpenMode.Read none true
      staleDesc rfl rfl rfl (by decide)).2.2.1,
   (open_stat_failure statFailingFiles sampleHook (FileRef.byID 1) AkOpenMode.Read none true
      staleDesc rfl rfl rfl (by decide)).2.2.2⟩

/-- C6, as stated, fails: when path resolution fails on the synchronous path
(here a hook that does not allow deferred opens), `Open` returns the generic
`AK_Fail`, which is not the code `PathResolutionFailed`. -/
theorem open_resolve_failure_not_PathResolutionFailed :
    (openCall unresolvableFiles CAkDefaultIOHookBlocking.ctor (FileRef.byID 7)
      AkOpenMode.Write none false staleDesc).eResult = AKRESULT.AK_Fail ∧
    (openCall unresolvableFiles CAkDefaultIOHookBlocking.ctor (FileRef.byID 7)
      AkOpenMode.Write none false staleDesc).eResult ≠ AKRESULT.PathResolutionFailed := by
  constructor <;> decide

/-- C6, amended: a call of `Open` on the synchronous path in which path
resolution fails returns `AK_Fail`; the call log holds the path resolution
only (neither the native open nor the native stat is attempted), and the
caller's descriptor is returned as it was passed in. -/
theorem open_resolve_failure (env : FileCollaborators) (self : CAkDefaultIOHookBlocking)
    (file : FileRef) (mode : AkOpenMode) (flags : Option AkFileSystemFlags) (sync : Bool)
    (fd : AkFileDesc) (hsync : (sync || !self.m_bAsyncOpen) = true)
    (hpath : (resolveCall env file flags mode).1 ≠ AKRESULT.AK_Success) :
    (openCall env self file mode flags sync fd).eResult = AKRESULT.AK_Fail ∧
    (openCall env self file mode flags sync fd).calls = [NativeCall.GetFullFilePath] ∧
    (openCall env self file mode flags sync fd).calls.any NativeCall.isOpenFile = false ∧
    (openCall env self file mode flags sync fd).calls.any NativeCall.isStat = false ∧
    (openCall env self file mode flags sync fd).out_fileDesc = fd := by
  rw [openCall_resolve_failed env self file mode flags sync fd hsync hpath]
  simp [NativeCall.isOpenFile, NativeCall.isStat]

/-- Witness of C6, amended: an open by ID on a freshly constructed hook
(deferred opens not allowed) whose path does not resolve. -/
theorem open_resolve_failure_witness :
    (openCall unresolvableFiles CAkDefaultIOHookBlocking.ctor (FileRef.byID 7)
      AkOpenMode.Write none false staleDesc).out_fileDesc = staleDesc :=
  (open_resolve_failure unresolvableFiles CAkDefaultIOHookBlocking.ctor (FileRef.byID 7)
    AkOpenMode.Write none false staleDesc rfl (by decide)).2.2.2.2

/-! ## Theorems about `Init` and `Term` -/

/-- C7, as stated, fails: for a configuration whose scheduler flags are 2
(not blocking), `Init` returns the generic `AK_Fail`, which is not the code
`UnsupportedSchedulerMode`. -/
theorem init_non_blocking_not_UnsupportedSchedulerMode :
    (CAkDefaultIOHookBlocking.Init listDevices 1 CAkDefaultIOHookBlocking.ctor
      { uSchedulerTypeFlags := 2 } true { resolver := none, devices := [] }).eResult =
        AKRESULT.AK_Fail ∧
    (CAkDefaultIOHookBlocking.Init listDevices 1 CAkDefaultIOHookBlocking.ctor
      { uSchedulerTypeFlags := 2 } true { resolver := none, devices := [] }).eResult ≠
        AKRESULT.UnsupportedSchedulerMode := by
  constructor <;> decide

/-- C7, amended: for every device configuration whose scheduler flags are not
`AK_SCHEDULER_BLOCKING`, `Init` returns `AK_Fail` and changes nothing: the
registered resolver and the device table are as before (no device is
created), and the hook keeps its device ID and its `m_bAsyncOpen`. -/
theorem init_non_blocking {D : Type} (api : StreamMgrDevices D) (this : HookAddr)
    (self : CAkDefaultIOHookBlocking) (cfg : AkDeviceSettings) (in_bAsyncOpen : Bool)
    (mgr : StreamMgrState D) (hcfg : cfg.uSchedulerTypeFlags ≠ AK_SCHEDULER_BLOCKING) :
    (CAkDefaultIOHookBlocking.Init api this self cfg in_bAsyncOpen mgr).eResult =
      AKRESULT.AK_Fail ∧
    (CAkDefaultIOHookBlocking.Init api this self cfg in_bAsyncOpen mgr).mgr.resolver =
      mgr.resolver ∧
    (CAkDefaultIOHookBlocking.Init api this self cfg in_bAsyncOpen mgr).mgr.devices =
      mgr.devices ∧
    (CAkDefaultIOHookBlocking.Init api this self cfg in_bAsyncOpen mgr).self.m_deviceID =
      self.m_deviceID ∧
    (CAkDefaultIOHookBlocking.Init api this self cfg in_bAsyncOpen mgr).self.m_bAsyncOpen =
      self.m_bAsyncOpen := by
  simp only [CAkDefaultIOHookBlocking.Init, ne_eq, hcfg, not_false_eq_true, if_true, and_self]

/-- Witness of C7, amended: scheduler flags 2 on a hook that holds device 0
with deferred opens allowed, asked to switch them off. -/
theorem init_non_blocking_witness :
    (CAkDefaultIOHookBlocking.Init listDevices 1 sampleHook { uSchedulerTypeFlags := 2 }
      false { resolver := some 9, devices := [0] }).mgr.devices = [0] ∧
    (CAkDefaultIOHookBlocking.Init listDevices 1 sampleHook { uSchedulerTypeFlags := 2 }
      false { resolver := some 9, devices := [0] }).self.m_bAsyncOpen = true :=
  ⟨(init_non_blocking listDevices 1 sampleHook { uSchedulerTypeFlags := 2 } false
      { resolver := some 9, devices := [0] } (by decide)).2.2.1,
   (init_non_blocking listDevices 1 sampleHook { uSchedulerTypeFlags := 2 } false
      { resolver := some 9, devices := [0] } (by decide)).2.2.2.2⟩

/-- C8: for every blocking configuration, `Init` leaves a resolver that is
already registered unchanged and, when none is registered, registers the
hook; in both cases it returns `AK_Success` exactly when `CreateDevice`
returns an ID other than `AK_INVALID_DEVICE_ID`.  Hence for two hooks `A` and
`B` initialised in that order from an empty resolver slot, the resolver after
both calls is `A`, and the `Init` of `B` succeeds exactly when its device is
created. -/
theorem init_first_registrant_wins {D : Type} (api : StreamMgrDevices D) (A B : HookAddr)
    (selfA selfB : CAkDefaultIOHookBlocking) (cfgA cfgB : AkDeviceSettings)
    (asyncA asyncB : Bool) (mgr : StreamMgrState D)
    (hA : cfgA.uSchedulerTypeFlags = AK_SCHEDULER_BLOCKING)
    (hB : cfgB.uSchedulerTypeFlags = AK_SCHEDULER_BLOCKING) :
    (mgr.resolver ≠ none →
      (CAkDefaultIOHookBlocking.Init api A selfA cfgA asyncA mgr).mgr.resolver =
        mgr.resolver) ∧
    (mgr.resolver = none →
      (CAkDefaultIOHookBlocking.Init api A selfA cfgA asyncA mgr).mgr.resolver = some A) ∧
    ((CAkDefaultIOHookBlocking.Init api A selfA cfgA asyncA mgr).eResult =
        AKRESULT.AK_Success ↔
      (api.CreateDevice cfgA A mgr.devices).1 ≠ AK_INVALID_DEVICE_ID) ∧
    (mgr.resolver = none →
      (CAkDefaultIOHookBlocking.Init api B selfB cfgB asyncB
        (CAkDefaultIOHookBlocking.Init api A selfA cfgA asyncA mgr).mgr).mgr.resolver =
          some A ∧
      ((CAkDefaultIOHookBlocking.Init api B selfB cfgB asyncB
        (CAkDefaultIOHookBlocking.Init api A selfA cfgA asyncA mgr).mgr).eResult =
          AKRESULT.AK_Success ↔
        (api.CreateDevice cfgB B
          (CAkDefaultIOHookBlocking.Init api A selfA cfgA asyncA mgr).mgr.devices).1 ≠
            AK_INVALID_DEVICE_ID)) := by
  have key : ∀ (T : HookAddr) (selfT : CAkDefaultIOHookBlocking) (cfgT : AkDeviceSettings)
      (asyncT : Bool) (m : StreamMgrState D),
      cfgT.uSchedulerTypeFlags = AK_SCHEDULER_BLOCKING →
      (CAkDefaultIOHookBlocking.Init api T selfT cfgT asyncT m).mgr.resolver =
        (if m.resolver.isNone then some T else m.resolver) ∧
      ((CAkDefaultIOHookBlocking.Init api T selfT cfgT asyncT m).eResult =
          AKRESULT.AK_Success ↔
        (api.CreateDevice cfgT T m.devices).1 ≠ AK_INVALID_DEVICE_ID) := by
    intro T selfT cfgT asyncT m hT
    simp only [CAkDefaultIOHookBlocking.Init, hT, StreamMgr.GetFileLocationResolver,
      StreamMgr.SetFileLocationResolver, ne_eq, not_true_eq_false, if_false]
    cases hr : m.resolver <;>
      by_cases hd : (api.CreateDevice cfgT T m.devices).1 = AK_INVALID_DEVICE_ID <;>
      simp [hd, hr]
  refine ⟨fun hne => ?_, fun hnone => ?_, (key A selfA cfgA asyncA mgr hA).2, fun hnone => ?_⟩
  · rw [(key A selfA cfgA asyncA mgr hA).1]
    cases hr : mgr.resolver with
    | none => exact absurd hr hne
    | some r => simp
  · rw [(key A selfA cfgA asyncA mgr hA).1, hnone]
    simp
  · have h1 : (CAkDefaultIOHookBlocking.Init api A selfA cfgA asyncA mgr).mgr.resolver =
        some A := by
      rw [(key A selfA cfgA asyncA mgr hA).1, hnone]
      simp
    refine ⟨?_, (key B selfB cfgB asyncB _ hB).2⟩
    rw [(key B selfB cfgB asyncB _ hB).1, h1]
    simp

/-- Witness of C8: hooks at addresses 1 and 2 initialised in that order from
an empty resolver slot and an empty device table. -/
theorem init_first_registrant_wins_witness :
    (CAkDefaultIOHookBlocking.Init listDevices 2 CAkDefaultIOHookBlocking.ctor
      { uSchedulerTypeFlags := 1 } true
      (CAkDefaultIOHookBlocking.Init listDevices 1 CAkDefaultIOHookBlocking.ctor
        { uSchedulerTypeFlags := 1 } true
        { resolver := none, devices := [] }).mgr).mgr.resolver = some 1 :=
  ((init_first_registrant_wins listDevices 1 2 CAkDefaultIOHookBlocking.ctor
      CAkDefaultIOHookBlocking.ctor { uSchedulerTypeFlags := 1 } { uSchedulerTypeFlags := 1 }
      true true { resolver := none, devices := [] } rfl rfl).2.2.2 rfl).1

/-- C9: after `Term` the resolver slot is empty if it held this hook and is
what it was before otherwise (another object, or none); in every case the
device table is the one `DestroyDevice` leaves when given the hook's device
ID. -/
theorem term_clears_only_own_resolver {D : Type} (api : StreamMgrDevices D) (this : HookAddr)
    (self : CAkDefaultIOHookBlocking) (mgr : StreamMgrState D) :
    (CAkDefaultIOHookBlocking.Term api this self mgr).resolver =
      (if mgr.resolver = some this then none else mgr.resolver) ∧
    (CAkDefaultIOHookBlocking.Term api this self mgr).devices =
      api.DestroyDevice self.m_deviceID mgr.devices := by
  simp only [CAkDefaultIOHookBlocking.Term, StreamMgr.GetFileLocationResolver,
    StreamMgr.SetFileLocationResolver]
  split_ifs <;> simp

/-! ## Theorems about `Read` -/

/-- C10, as stated, fails: on a 100-byte file and on a 150-byte file, a read
at offset 50 of length 100 transfers 50 and 100 bytes, and `Read` leaves the
caller with the very same outcome in both runs; so nothing in the outcome of
`Read` is the number of bytes transferred. -/
theorem read_outcome_without_byte_count :
    (preadFile (List.replicate 100 0) 3 (List.replicate 100 0) 50 100).out_uSizeRead = 50 ∧
    (preadFile (List.replicate 150 0) 3 (List.replicate 100 0) 50 100).out_uSizeRead = 100 ∧
    CAkDefaultIOHookBlocking.Read (preadFile (List.replicate 100 0))
        { iFileSize := 100, uSector := 0, uCustomParamSize := 0, pCustomParam := none,
          hFile := 3, deviceID := 0 }
        { priority := 50, deadline := 0 } (List.replicate 100 0)
        { uFilePosition := 50, uRequestedSize := 100 } =
      CAkDefaultIOHookBlocking.Read (preadFile (List.replicate 150 0))
        { iFileSize := 150, uSector := 0, uCustomParamSize := 0, pCustomParam := none,
          hFile := 3, deviceID := 0 }
        { priority := 50, deadline := 0 } (List.replicate 100 0)
        { uFilePosition := 50, uRequestedSize := 100 } ∧
    ¬ ∃ bytesTransferred : ReadOutcome → Nat,
      bytesTransferred (CAkDefaultIOHookBlocking.Read (preadFile (List.replicate 100 0))
        { iFileSize := 100, uSector := 0, uCustomParamSize := 0, pCustomParam := none,
          hFile := 3, deviceID := 0 }
        { priority := 50, deadline := 0 } (List.replicate 100 0)
        { uFilePosition := 50, uRequestedSize := 100 }) = 50 ∧
      bytesTransferred (CAkDefaultIOHookBlocking.Read (preadFile (List.replicate 150 0))
        { iFileSize := 150, uSector := 0, uCustomParamSize := 0, pCustomParam := none,
          hFile := 3, deviceID := 0 }
        { priority := 50, deadline := 0 } (List.replicate 100 0)
        { uFilePosition := 50, uRequestedSize := 100 }) = 100 := by
  have hEq : CAkDefaultIOHookBlocking.Read (preadFile (List.replicate 100 0))
        { iFileSize := 100, uSector := 0, uCustomParamSize := 0, pCustomParam := none,
          hFile := 3, deviceID := 0 }
        { priority := 50, deadline := 0 } (List.replicate 100 0)
        { uFilePosition := 50, uRequestedSize := 100 } =
      CAkDefaultIOHookBlocking.Read (preadFile (List.replicate 150 0))
        { iFileSize := 150, uSector := 0, uCustomParamSize := 0, pCustomParam := none,
          hFile := 3, deviceID := 0 }
        { priority := 50, deadline := 0 } (List.replicate 100 0)
        { uFilePosition := 50, uRequestedSize := 100 } := by
    simp [CAkDefaultIOHookBlocking.Read, preadFile]
  refine ⟨by simp [preadFile], by simp [preadFile], hEq, ?_⟩
  rintro ⟨f, h50, h100⟩
  rw [hEq] at h50
  omega

/-- C10, amended: `Read` returns the code of the native read, so `AK_Success`
whenever the native read succeeds, whatever number of bytes it transferred;
it reports no byte count: the transfer info comes back unchanged, the buffer
is the one the native read left, and the outcome is the same for any two
native reads that agree on code and buffer, whatever counts they report.  The
heuristics argument has no influence on the outcome. -/
theorem read_returns_native_code (ReadBlocking : ReadBlockingFn) (fd : AkFileDesc)
    (heur : AkIoHeuristics) (buf : Buffer) (ti : AkIOTransferInfo)
    (hok : (ReadBlocking fd.hFile buf ti.uFilePosition ti.uRequestedSize).eResult =
      AKRESULT.AK_Success) :
    (CAkDefaultIOHookBlocking.Read ReadBlocking fd heur buf ti).eResult =
      AKRESULT.AK_Success ∧
    (CAkDefaultIOHookBlocking.Read ReadBlocking fd heur buf ti).io_transferInfo = ti ∧
    (CAkDefaultIOHookBlocking.Read ReadBlocking fd heur buf ti).out_pBuffer =
      (ReadBlocking fd.hFile buf ti.uFilePosition ti.uRequestedSize).buffer ∧
    (∀ other : ReadBlockingFn,
      (other fd.hFile buf ti.uFilePosition ti.uRequestedSize).eResult =
        (ReadBlocking fd.hFile buf ti.uFilePosition ti.uRequestedSize).eResult →
      (other fd.hFile buf ti.uFilePosition ti.uRequestedSize).buffer =
        (ReadBlocking fd.hFile buf ti.uFilePosition ti.uRequestedSize).buffer →
      CAkDefaultIOHookBlocking.Read other fd heur buf ti =
        CAkDefaultIOHookBlocking.Read ReadBlocking fd heur buf ti) ∧
    (∀ heur2 : AkIoHeuristics,
      CAkDefaultIOHookBlocking.Read ReadBlocking fd heur2 buf ti =
        CAkDefaultIOHookBlocking.Read ReadBlocking fd heur buf ti) := by
  refine ⟨?_, rfl, rfl, ?_, fun _ => rfl⟩
  · simpa [CAkDefaultIOHookBlocking.Read] using hok
  · intro other h1 h2
    simp only [CAkDefaultIOHookBlocking.Read, h1, h2]

/-- Witness of C10, amended: the read at offset 50 of length 100 on a
100-byte file returns `AK_Success` and the transfer info it was given. -/
theorem read_returns_native_code_witness :
    (CAkDefaultIOHookBlocking.Read (preadFile (List.replicate 100 0))
      { iFileSize := 100, uSector := 0, uCustomParamSize := 0, pCustomParam := none,
        hFile := 3, deviceID := 0 }
      { priority := 50, deadline := 0 } (List.replicate 100 0)
      { uFilePosition := 50, uRequestedSize := 100 }).eResult = AKRESULT.AK_Success ∧
    (CAkDefaultIOHookBlocking.Read (preadFile (List.replicate 100 0))
      { iFileSize := 100, uSector := 0, uCustomParamSize := 0, pCustomParam := none,
        hFile := 3, deviceID := 0 }
      { priority := 50, deadline := 0 } (List.replicate 100 0)
      { uFilePosition := 50, uRequestedSize := 100 }).io_transferInfo =
        { uFilePosition := 50, uRequestedSize := 100 } :=
  ⟨(read_returns_native_code (preadFile (List.replicate 100 0))
      { iFileSize := 100, uSector := 0, uCustomParamSize := 0, pCustomParam := none,
        hFile := 3, deviceID := 0 }
      { priority := 50, deadline := 0 } (List.replicate 100 0)
      { uFilePosition := 50, uRequestedSize := 100 } rfl).1,
   (read_returns_native_code (preadFile (List.replicate 100 0))
      { iFileSize := 100, uSector := 0, uCustomParamSize := 0, pCustomParam := none,
        hFile := 3, deviceID := 0 }
      { priority := 50, deadline := 0 } (List.replicate 100 0)
      { uFilePosition := 50, uRequestedSize := 100 } rfl).2.1⟩

/-! ## Theorems about the delay parameter block -/

/-- The four parameter IDs whose case sets the changed flag: delay time and
process LFE leave `NonRTPC.bHasChanged` true, feedback and feedback enabled
leave `RTPC.bHasChanged` true, and each returns `AK_Success`. -/
theorem setParam_marks_four_ids {R : Type} (ar : Real32Arith R) (self : CAkDelayFXParams R)
    (v : ParamValue R) (size : Nat) :
    ((CAkDelayFXParams.SetParam ar self AK_DELAYFXPARAM_DELAYTIME_ID v size).1 =
        AKRESULT.AK_Success ∧
      (CAkDelayFXParams.SetParam ar self AK_DELAYFXPARAM_DELAYTIME_ID v
        size).2.NonRTPC.bHasChanged = true) ∧
    ((CAkDelayFXParams.SetParam ar self AK_DELAYFXPARAM_FEEDBACK_ID v size).1 =
        AKRESULT.AK_Success ∧
      (CAkDelayFXParams.SetParam ar self AK_DELAYFXPARAM_FEEDBACK_ID v
        size).2.RTPC.bHasChanged = true) ∧
    ((CAkDelayFXParams.SetParam ar self AK_DELAYFXPARAM_FEEDBACKENABLED_ID v size).1 =
        AKRESULT.AK_Success ∧
      (CAkDelayFXParams.SetParam ar self AK_DELAYFXPARAM_FEEDBACKENABLED_ID v
        size).2.RTPC.bHasChanged = true) ∧
    ((CAkDelayFXParams.SetParam ar self AK_DELAYFXPARAM_PROCESSLFE_ID v size).1 =
        AKRESULT.AK_Success ∧
      (CAkDelayFXParams.SetParam ar self AK_DELAYFXPARAM_PROCESSLFE_ID v
        size).2.NonRTPC.bHasChanged = true) := by
  refine ⟨⟨rfl, rfl⟩, ⟨rfl, rfl⟩, ⟨rfl, rfl⟩, ⟨rfl, rfl⟩⟩

/-- An ID outside the six recognised ones: `SetParam` returns
`AK_InvalidParameter` and the members are exactly what they were. -/
theorem setParam_unknown_id {R : Type} (ar : Real32Arith R) (self : CAkDelayFXParams R)
    (id : Int) (v : ParamValue R) (size : Nat)
    (h0 : id ≠ AK_DELAYFXPARAM_DELAYTIME_ID) (h1 : id ≠ AK_DELAYFXPARAM_FEEDBACK_ID)
    (h2 : id ≠ AK_DELAYFXPARAM_WETDRYMIX_ID) (h3 : id ≠ AK_DELAYFXPARAM_OUTPUTGAIN_ID)
    (h4 : id ≠ AK_DELAYFXPARAM_FEEDBACKENABLED_ID)
    (h5 : id ≠ AK_DELAYFXPARAM_PROCESSLFE_ID) :
    CAkDelayFXParams.SetParam ar self id v size = (AKRESULT.AK_InvalidParameter, self) := by
  simp only [CAkDelayFXParams.SetParam, h0, h1, h2, h3, h4, h5, if_false]

/-- The block setter, a sibling of `SetParam`, writes the same fields and
leaves both changed flags true whatever the block holds. -/
theorem setParamsBlock_marks_both {R : Type} (ar : Real32Arith R)
    (self : CAkDelayFXParams R) (blk : ParamsBlock R) :
    (CAkDelayFXParams.SetParamsBlock ar self blk).2.RTPC.bHasChanged = true ∧
    (CAkDelayFXParams.SetParamsBlock ar self blk).2.NonRTPC.bHasChanged = true :=
  ⟨rfl, rfl⟩

/-- On a parameter block whose `RTPC.bHasChanged` is false, `SetParam` for
the wet/dry mix and for the output gain returns `AK_Success` and stores the
new value in the RTPC group, and `RTPC.bHasChanged` is still false
afterwards, for every value and every single-precision arithmetic. -/
theorem setParam_wetDryMix_outputGain_flag_unset {R : Type} (ar : Real32Arith R)
    (rtpc : AkDelayRTPCParams R) (nonRTPC : AkDelayNonRTPCParams R) (v : ParamValue R)
    (size : Nat) :
    ((CAkDelayFXParams.SetParam ar
        { RTPC := { rtpc with bHasChanged := false }, NonRTPC := nonRTPC }
        AK_DELAYFXPARAM_WETDRYMIX_ID v size).1 = AKRESULT.AK_Success ∧
      (CAkDelayFXParams.SetParam ar
        { RTPC := { rtpc with bHasChanged := false }, NonRTPC := nonRTPC }
        AK_DELAYFXPARAM_WETDRYMIX_ID v size).2.RTPC.fWetDryMix =
          ar.mulOneOverPercentMax v.asReal32 ∧
      (CAkDelayFXParams.SetParam ar
        { RTPC := { rtpc with bHasChanged := false }, NonRTPC := nonRTPC }
        AK_DELAYFXPARAM_WETDRYMIX_ID v size).2.RTPC.bHasChanged = false) ∧
    ((CAkDelayFXParams.SetParam ar
        { RTPC := { rtpc with bHasChanged := false }, NonRTPC := nonRTPC }
        AK_DELAYFXPARAM_OUTPUTGAIN_ID v size).1 = AKRESULT.AK_Success ∧
      (CAkDelayFXParams.SetParam ar
        { RTPC := { rtpc with bHasChanged := false }, NonRTPC := nonRTPC }
        AK_DELAYFXPARAM_OUTPUTGAIN_ID v size).2.RTPC.fOutputLevel =
          ar.powfTenOfTwentieth v.asReal32 ∧
      (CAkDelayFXParams.SetParam ar
        { RTPC := { rtpc with bHasChanged := false }, NonRTPC := nonRTPC }
        AK_DELAYFXPARAM_OUTPUTGAIN_ID v size).2.RTPC.bHasChanged = false) :=
  ⟨⟨rfl, rfl, rfl⟩, ⟨rfl, rfl, rfl⟩⟩

/-- C11, as stated, fails: on a parameter block whose changed flags are
false, `SetParam` for the wet/dry mix with value 50 returns `AK_Success` and
stores the value, and `RTPC.bHasChanged` is not true afterwards; the same
holds for the output gain with value -6. -/
theorem setParam_wetDryMix_not_marked :
    (CAkDelayFXParams.SetParam termArith settledParams AK_DELAYFXPARAM_WETDRYMIX_ID
      { asReal32 := Real32Term.lit 50, asBool := false } 4).1 = AKRESULT.AK_Success ∧
    (CAkDelayFXParams.SetParam termArith settledParams AK_DELAYFXPARAM_WETDRYMIX_ID
      { asReal32 := Real32Term.lit 50, asBool := false } 4).2.RTPC.fWetDryMix =
        Real32Term.mulOneOverPercentMax (Real32Term.lit 50) ∧
    (CAkDelayFXParams.SetParam termArith settledParams AK_DELAYFXPARAM_WETDRYMIX_ID
      { asReal32 := Real32Term.lit 50, asBool := false } 4).2.RTPC.bHasChanged ≠ true ∧
    (CAkDelayFXParams.SetParam termArith settledParams AK_DELAYFXPARAM_OUTPUTGAIN_ID
      { asReal32 := Real32Term.lit (-6), asBool := false } 4).1 = AKRESULT.AK_Success ∧
    (CAkDelayFXParams.SetParam termArith settledParams AK_DELAYFXPARAM_OUTPUTGAIN_ID
      { asReal32 := Real32Term.lit (-6), asBool := false } 4).2.RTPC.bHasChanged ≠ true := by
  refine ⟨rfl, rfl, ?_, rfl, ?_⟩ <;> decide

/-- C11, amended: `SetParam` returns `AK_Success` for each of the six
recognised parameter IDs and every value.  For the delay time and process
LFE it leaves `NonRTPC.bHasChanged` true, for the feedback and feedback
enabled it leaves `RTPC.bHasChanged` true.  For the wet/dry mix and the
output gain it stores the value in the RTPC group and leaves every other
field and both changed flags as they were.  For every other ID it returns
`AK_InvalidParameter` and changes no parameter field and no changed flag. -/
theorem setParam_marks_or_keeps {R : Type} (ar : Real32Arith R) (self : CAkDelayFXParams R)
    (v : ParamValue R) (size : Nat) :
    ((CAkDelayFXParams.SetParam ar self AK_DELAYFXPARAM_DELAYTIME_ID v size).1 =
        AKRESULT.AK_Success ∧
      (CAkDelayFXParams.SetParam ar self AK_DELAYFXPARAM_DELAYTIME_ID v
        size).2.NonRTPC.bHasChanged = true) ∧
    ((CAkDelayFXParams.SetParam ar self AK_DELAYFXPARAM_FEEDBACK_ID v size).1 =
        AKRESULT.AK_Success ∧
      (CAkDelayFXParams.SetParam ar self AK_DELAYFXPARAM_FEEDBACK_ID v
        size).2.RTPC.bHasChanged = true) ∧
    ((CAkDelayFXParams.SetParam ar self AK_DELAYFXPARAM_FEEDBACKENABLED_ID v size).1 =
        AKRESULT.AK_Success ∧
      (CAkDelayFXParams.SetParam ar self AK_DELAYFXPARAM_FEEDBACKENABLED_ID v
        size).2.RTPC.bHasChanged = true) ∧
    ((CAkDelayFXParams.SetParam ar self AK_DELAYFXPARAM_PROCESSLFE_ID v size).1 =
        AKRESULT.AK_Success ∧
      (CAkDelayFXParams.SetParam ar self AK_DELAYFXPARAM_PROCESSLFE_ID v
        size).2.NonRTPC.bHasChanged = true) ∧
    (CAkDelayFXParams.SetParam ar self AK_DELAYFXPARAM_WETDRYMIX_ID v size =
      (AKRESULT.AK_Success,
        { RTPC :=
            { fFeedback := self.RTPC.fFeedback
              fWetDryMix := ar.mulOneOverPercentMax v.asReal32
              fOutputLevel := self.RTPC.fOutputLevel
              bFeedbackEnabled := self.RTPC.bFeedbackEnabled
              bHasChanged := self.RTPC.bHasChanged }
          NonRTPC := self.NonRTPC })) ∧
    (CAkDelayFXParams.SetParam ar self AK_DELAYFXPARAM_OUTPUTGAIN_ID v size =
      (AKRESULT.AK_Success,
        { RTPC :=
            { fFeedback := self.RTPC.fFeedback
              fWetDryMix := self.RTPC.fWetDryMix
              fOutputLevel := ar.powfTenOfTwentieth v.asReal32
              bFeedbackEnabled := self.RTPC.bFeedbackEnabled
              bHasChanged := self.RTPC.bHasChanged }
          NonRTPC := self.NonRTPC })) ∧
    (∀ id : Int,
      id ≠ AK_DELAYFXPARAM_DELAYTIME_ID → id ≠ AK_DELAYFXPARAM_FEEDBACK_ID →
      id ≠ AK_DELAYFXPARAM_WETDRYMIX_ID → id ≠ AK_DELAYFXPARAM_OUTPUTGAIN_ID →
      id ≠ AK_DELAYFXPARAM_FEEDBACKENABLED_ID → id ≠ AK_DELAYFXPARAM_PROCESSLFE_ID →
      CAkDelayFXParams.SetParam ar self id v size = (AKRESULT.AK_InvalidParameter, self)) := by
  refine ⟨⟨rfl, rfl⟩, ⟨rfl, rfl⟩, ⟨rfl, rfl⟩, ⟨rfl, rfl⟩, rfl, rfl, ?_⟩
  intro id h0 h1 h2 h3 h4 h5
  simp only [CAkDelayFXParams.SetParam, h0, h1, h2, h3, h4, h5, if_false]

/-- Witness of C11, amended: on the settled block, the unknown ID 6 is
refused and leaves the block as it was, and the feedback ID marks the RTPC
group. -/
theorem setParam_marks_or_keeps_witness :
    CAkDelayFXParams.SetParam termArith settledParams 6
      { asReal32 := Real32Term.lit 50, asBool := true } 4 =
        (AKRESULT.AK_InvalidParameter, settledParams) ∧
    (CAkDelayFXParams.SetParam termArith settledParams AK_DELAYFXPARAM_FEEDBACK_ID
      { asReal32 := Real32Term.lit 50, asBool := true } 4).2.RTPC.bHasChanged = true :=
  ⟨(setParam_marks_or_keeps termArith settledParams
      { asReal32 := Real32Term.lit 50, asBool := true } 4).2.2.2.2.2.2 6
      (by decide) (by decide) (by decide) (by decide) (by decide) (by decide),
   (setParam_marks_or_keeps termArith settledParams
      { asReal32 := Real32Term.lit 50, asBool := true } 4).2.1.2⟩

end AK
